import Mathlib

/-!
Verification of the recipe/inventory core of the Recipe-Website repository.

The JavaScript source is shallowly embedded: JS strings become `String`,
JS arrays become `List`, finite JS numbers become `ℚ` (with `none : Option ℚ`
standing for the non-finite values NaN/±Infinity that `Number.isFinite`
rejects), thrown validation errors become `Except String`, and the mutable
in-memory collections become explicit state passing (`add` returns the new
collection next to its result).  The wall clock (`new Date()`) is passed in
explicitly: as the current `YYYY-MM-DD` string for `createdDate`, and as a
millisecond timestamp for `withDerived`.
-/

namespace RecipeHub

/-- Equality of embedded results is decidable, so witnesses can be checked
by evaluation. -/
instance {e a : Type} [DecidableEq e] [DecidableEq a] : DecidableEq (Except e a)
  | .error x, .error y =>
    if h : x = y then .isTrue (by rw [h]) else .isFalse (fun hc => h (Except.error.inj hc))
  | .error _, .ok _ => .isFalse (fun hc => Except.noConfusion hc)
  | .ok _, .error _ => .isFalse (fun hc => Except.noConfusion hc)
  | .ok x, .ok y =>
    if h : x = y then .isTrue (by rw [h]) else .isFalse (fun hc => h (Except.ok.inj hc))

/-- Whitespace class of the JS regexes and of `String.prototype.trim`
(ASCII part). -/
def isJsWs (c : Char) : Bool :=
  c = ' ' || c = '\t' || c = '\n' || c = '\r' || c = '\x0b' || c = '\x0c'

/-- Trim on character lists: drop whitespace from the front, then from the
back. -/
def trimChars (l : List Char) : List Char :=
  List.rdropWhile isJsWs (l.dropWhile isJsWs)

/-- Embeds `String(x).trim()`. -/
def jsTrim (s : String) : String :=
  String.mk (trimChars s.data)

/-- Embeds the JS idiom `x || d` on strings: the empty string is falsy and
falls back to the default, as does an absent (`undefined`) value. -/
def jsOrS (o : Option String) (d : String) : String :=
  match o with
  | none => d
  | some s => if s = "" then d else s

/-- A JS number as seen through `Number.isFinite`: `none` models NaN and
±Infinity, `some q` a finite value. -/
abbrev JsNum := Option ℚ

/-- Value of a non-empty list of decimal digit characters. -/
def digitsToNat (cs : List Char) : ℕ :=
  cs.foldl (fun a c => a * 10 + (c.toNat - 48)) 0

/-- Embeds the test `/^R-\d{5}$/.test(s)`. -/
def isRecipeIdFormat (s : String) : Bool :=
  match s.data with
  | 'R' :: '-' :: ds => ds.length == 5 && ds.all Char.isDigit
  | _ => false

/-- Numeric suffix a record contributes to the next-id computation of
`Recipe.add`: the captured five digits of `/^R-(\d{5})$/`, else `0`. -/
def recipeIdSuffix (s : String) : ℕ :=
  match s.data with
  | 'R' :: '-' :: ds => if ds.length == 5 && ds.all Char.isDigit then digitsToNat ds else 0
  | _ => 0

/-- Embeds the test `/^I-\d{5}$/.test(s)`. -/
def isInventoryIdFormat (s : String) : Bool :=
  match s.data with
  | 'I' :: '-' :: ds => ds.length == 5 && ds.all Char.isDigit
  | _ => false

/-- Numeric suffix for the inventory next-id computation, `0` when the id
does not match `/^I-(\d{5})$/`. -/
def inventoryIdSuffix (s : String) : ℕ :=
  match s.data with
  | 'I' :: '-' :: ds => if ds.length == 5 && ds.all Char.isDigit then digitsToNat ds else 0
  | _ => 0

/-- Embeds the test `/^\d{4}-\d{2}-\d{2}$/.test(s)`. -/
def isYmd (s : String) : Bool :=
  match s.data with
  | [y1, y2, y3, y4, '-', m1, m2, '-', d1, d2] =>
    y1.isDigit && y2.isDigit && y3.isDigit && y4.isDigit &&
    m1.isDigit && m2.isDigit && d1.isDigit && d2.isDigit
  | _ => false

/-- Embeds `String(n).padStart(5, "0")`. -/
def padStart5 (s : String) : String :=
  if 5 ≤ s.length then s else String.mk (List.replicate (5 - s.length) '0') ++ s

/-- Lexicographic (code-unit) comparison of character lists, as JS `<`/`>`
compare strings. -/
def charListLt : List Char → List Char → Bool
  | [], [] => false
  | [], _ :: _ => true
  | _ :: _, [] => false
  | a :: as, b :: bs => if a < b then true else if b < a then false else charListLt as bs

/-- Embeds the JS string comparison `a < b`. -/
def strLtB (a b : String) : Bool :=
  charListLt a.data b.data

/- ### Recipe model (models/recipe.js) -/

/-- A validated Recipe record as assigned by the constructor. -/
structure Recipe where
  recipeId : String
  title : String
  chef : String
  ingredients : List String
  instructions : List String
  mealType : String
  cuisineType : String
  prepTime : ℚ
  difficulty : String
  servings : ℚ
  createdDate : String
  deriving DecidableEq, Repr

/-- The destructured argument object of the Recipe constructor.  Absent
properties are `none`; numeric fields carry the value of `Number(x)`. -/
structure RecipeCtorInput where
  recipeId : String
  title : Option String
  chef : Option String
  ingredients : List String
  instructions : List String
  mealType : Option String
  cuisineType : Option String
  prepTime : JsNum
  difficulty : Option String
  servings : JsNum
  createdDate : Option String
  deriving DecidableEq, Repr

/-- The conjunction of every check of the Recipe constructor. -/
def recipeCtorCondB (inp : RecipeCtorInput) (today : String) : Bool :=
  isRecipeIdFormat inp.recipeId &&
  jsTrim (inp.title.getD "") != "" &&
  jsTrim (inp.chef.getD "") != "" &&
  (match inp.prepTime with | some q => decide (0 < q) | none => false) &&
  (["Easy", "Medium", "Hard"] : List String).contains (inp.difficulty.getD "undefined") &&
  (match inp.servings with | some q => decide (0 < q) | none => false) &&
  isYmd (inp.createdDate.getD today)

/-- The record the Recipe constructor assigns when every check passes.
`this.ingredients = ingredients.slice()` copies the caller's array; with
value semantics the copy is the list value itself. -/
def recipeCtorResult (inp : RecipeCtorInput) (today : String) : Recipe :=
  { recipeId := inp.recipeId
    title := jsTrim (inp.title.getD "")
    chef := jsTrim (inp.chef.getD "")
    ingredients := inp.ingredients
    instructions := inp.instructions
    mealType := jsTrim (inp.mealType.getD "")
    cuisineType := jsTrim (inp.cuisineType.getD "")
    prepTime := inp.prepTime.getD 0
    difficulty := inp.difficulty.getD "undefined"
    servings := inp.servings.getD 0
    createdDate := inp.createdDate.getD today }

/-- Embeds the Recipe constructor: each validation in source order (recipeId,
title, chef, prepTime, difficulty, servings, createdDate; the two
`Array.isArray` checks hold by the type of the embedded input), then the
field assignment.  `String(title || "")` is `inp.title.getD ""`;
`String(difficulty)` of an absent value is `"undefined"`. -/
def recipeCtor (inp : RecipeCtorInput) (today : String) : Except String Recipe :=
  if isRecipeIdFormat inp.recipeId = false then
    .error "recipeId must be in R-00001 format"
  else if jsTrim (inp.title.getD "") = "" then .error "title is required"
  else if jsTrim (inp.chef.getD "") = "" then .error "chef is required"
  else
    match inp.prepTime with
    | none => .error "prepTime must be a number greater than 0"
    | some pt =>
      if pt ≤ 0 then .error "prepTime must be a number greater than 0"
      else if (["Easy", "Medium", "Hard"] : List String).contains
          (inp.difficulty.getD "undefined") = false then
        .error "difficulty must be one of Easy | Medium | Hard"
      else
        match inp.servings with
        | none => .error "servings must be a number greater than 0"
        | some sv =>
          if sv ≤ 0 then .error "servings must be a number greater than 0"
          else if isYmd (inp.createdDate.getD today) = false then
            .error "createdDate must be in YYYY-MM-DD format"
          else .ok (recipeCtorResult inp today)

/-- Embeds `Recipe.formatId`. -/
def Recipe.formatId (n : ℕ) : String :=
  "R-" ++ padStart5 (Nat.repr n)

/-- Splitter of `Recipe.parseList`: the regex `/\r?\n|,/`. -/
def splitListChars : List Char → List Char → List (List Char)
  | [], acc => [acc.reverse]
  | ',' :: rest, acc => acc.reverse :: splitListChars rest []
  | '\r' :: '\n' :: rest, acc => acc.reverse :: splitListChars rest []
  | '\n' :: rest, acc => acc.reverse :: splitListChars rest []
  | c :: rest, acc => splitListChars rest (c :: acc)

/-- Embeds `Recipe.parseList`: split on newline or comma, trim each piece,
drop empty pieces. -/
def Recipe.parseList (o : Option String) : List String :=
  ((splitListChars (o.getD "").data []).map (fun cs => jsTrim (String.mk cs))).filter
    (fun s => s != "")

/-- A raw `req.body` for the add-recipe form.  Numeric fields carry the
value `Number(x)` would produce. -/
structure RecipePayload where
  title : Option String
  chef : Option String
  mealType : Option String
  cuisineType : Option String
  prepTime : JsNum
  difficulty : Option String
  servings : JsNum
  ingredients : Option String
  instructions : Option String
  createdDate : Option String
  deriving DecidableEq, Repr

/-- Embeds the next-id scan of `Recipe.add`:
`recipes.map(suffix-or-0).reduce(Math.max, 0)`. -/
def maxRecipeSuffix (recipes : List Recipe) : ℕ :=
  (recipes.map (fun r => recipeIdSuffix r.recipeId)).foldl max 0

/-- The `newRecipe` object literal built inside `Recipe.add`. -/
def recipeAddInput (recipes : List Recipe) (p : RecipePayload) (today : String) :
    RecipeCtorInput :=
  { recipeId := Recipe.formatId (maxRecipeSuffix recipes + 1)
    title := some (jsTrim (p.title.getD ""))
    chef := some (jsTrim (p.chef.getD ""))
    ingredients := Recipe.parseList p.ingredients
    instructions := Recipe.parseList p.instructions
    mealType := some (jsTrim (p.mealType.getD ""))
    cuisineType := some (jsTrim (p.cuisineType.getD ""))
    prepTime := p.prepTime
    difficulty := some (jsTrim (p.difficulty.getD ""))
    servings := p.servings
    createdDate := some today }

/-- Embeds `Recipe.add`.  The collection is passed and returned explicitly;
`today` is the `YYYY-MM-DD` rendering of `new Date()`.  On a thrown
validation error the collection comes back untouched, mirroring that `push`
runs only after the constructor returned. -/
def Recipe.add (recipes : List Recipe) (p : RecipePayload) (today : String) :
    Except String Recipe × List Recipe :=
  if jsTrim (p.title.getD "") = "" then (.error "title is required", recipes)
  else if jsTrim (p.chef.getD "") = "" then (.error "chef is required", recipes)
  else
    match recipeCtor (recipeAddInput recipes p today) today with
    | .error e => (.error e, recipes)
    | .ok v => (.ok v, recipes ++ [v])

/-- The §3 data-model constraints on the payload-controlled Recipe fields:
non-empty trimmed `title` and `chef`, finite positive `prepTime` and
`servings`, `difficulty` one of the three literals. -/
def recipePayloadValidB (p : RecipePayload) : Bool :=
  jsTrim (p.title.getD "") != "" &&
  jsTrim (p.chef.getD "") != "" &&
  (match p.prepTime with | some q => decide (0 < q) | none => false) &&
  (["Easy", "Medium", "Hard"] : List String).contains (jsTrim (p.difficulty.getD "")) &&
  (match p.servings with | some q => decide (0 < q) | none => false)

/- ### InventoryItem model (models/inventoryItem.js) -/

/-- A validated InventoryItem record as assigned by the constructor. -/
structure InventoryItem where
  inventoryId : String
  userId : String
  ingredientName : String
  quantity : ℚ
  unit : String
  category : String
  purchaseDate : String
  expirationDate : String
  location : String
  cost : ℚ
  createdDate : String
  deriving DecidableEq, Repr

/-- The destructured argument object of the InventoryItem constructor, in
the already-stringified shape `InventoryItem.add` builds (`newItemRaw`). -/
structure InvCtorInput where
  inventoryId : String
  userId : Option String
  ingredientName : Option String
  quantity : JsNum
  unit : Option String
  category : Option String
  purchaseDate : String
  expirationDate : String
  location : Option String
  cost : JsNum
  createdDate : Option String
  deriving DecidableEq, Repr

/-- The conjunction of every check of the InventoryItem constructor,
including the cross-field rule `purchaseDate > expirationDate` on strings. -/
def invCtorCondB (inp : InvCtorInput) (today : String) : Bool :=
  isInventoryIdFormat inp.inventoryId &&
  jsTrim (inp.userId.getD "") != "" &&
  jsTrim (inp.ingredientName.getD "") != "" &&
  jsTrim (inp.unit.getD "") != "" &&
  jsTrim (inp.category.getD "") != "" &&
  jsTrim (inp.location.getD "") != "" &&
  (match inp.quantity with | some q => decide (0 ≤ q) | none => false) &&
  (match inp.cost with | some c => decide (0 ≤ c) | none => false) &&
  (inp.purchaseDate == "" || isYmd inp.purchaseDate) &&
  (inp.expirationDate == "" || isYmd inp.expirationDate) &&
  isYmd (inp.createdDate.getD today) &&
  !(inp.purchaseDate != "" && inp.expirationDate != "" &&
    strLtB inp.expirationDate inp.purchaseDate)

/-- The record the InventoryItem constructor assigns when every check
passes (`this.purchaseDate = purchaseDate || ""` is the identity on the
string the add path supplies). -/
def invCtorResult (inp : InvCtorInput) (today : String) : InventoryItem :=
  { inventoryId := inp.inventoryId
    userId := jsTrim (inp.userId.getD "")
    ingredientName := jsTrim (inp.ingredientName.getD "")
    quantity := inp.quantity.getD 0
    unit := jsTrim (inp.unit.getD "")
    category := jsTrim (inp.category.getD "")
    purchaseDate := inp.purchaseDate
    expirationDate := inp.expirationDate
    location := jsTrim (inp.location.getD "")
    cost := inp.cost.getD 0
    createdDate := inp.createdDate.getD today }

/-- Embeds the InventoryItem constructor: each validation in source order
(inventoryId, userId, ingredientName, unit, category, location, quantity,
cost, purchaseDate format, expirationDate format, createdDate format,
expiration-not-before-purchase), then the field assignment. -/
def inventoryCtor (inp : InvCtorInput) (today : String) : Except String InventoryItem :=
  if isInventoryIdFormat inp.inventoryId = false then
    .error "inventoryId must be in I-00001 format"
  else if jsTrim (inp.userId.getD "") = "" then .error "userId is required"
  else if jsTrim (inp.ingredientName.getD "") = "" then .error "ingredientName is required"
  else if jsTrim (inp.unit.getD "") = "" then .error "unit is required"
  else if jsTrim (inp.category.getD "") = "" then .error "category is required"
  else if jsTrim (inp.location.getD "") = "" then .error "location is required"
  else
    match inp.quantity with
    | none => .error "quantity must be a non-negative number"
    | some q =>
      if q < 0 then .error "quantity must be a non-negative number"
      else
        match inp.cost with
        | none => .error "cost must be a number at least 0"
        | some c =>
          if c < 0 then .error "cost must be a number at least 0"
          else if inp.purchaseDate != "" && isYmd inp.purchaseDate = false then
            .error "purchaseDate must be in YYYY-MM-DD format"
          else if inp.expirationDate != "" && isYmd inp.expirationDate = false then
            .error "expirationDate must be in YYYY-MM-DD format"
          else if isYmd (inp.createdDate.getD today) = false then
            .error "createdDate must be in YYYY-MM-DD format"
          else if inp.purchaseDate != "" && inp.expirationDate != "" &&
              strLtB inp.expirationDate inp.purchaseDate then
            .error "expirationDate must not be earlier than purchaseDate"
          else .ok (invCtorResult inp today)

/-- Embeds `InventoryItem.formatId`. -/
def InventoryItem.formatId (n : ℕ) : String :=
  "I-" ++ padStart5 (Nat.repr n)

/-- A raw `req.body` for the add-inventory form, with the aliased field
names `InventoryItem.add` accepts.  Raw numeric fields are doubly optional:
the outer `Option` is property presence (for `??`), the inner `JsNum` the
finiteness of `Number(x)`. -/
structure InvPayload where
  userId : Option String
  name : Option String
  ingredientName : Option String
  category : Option String
  location : Option String
  quantity : JsNum
  unit : Option String
  pricePerUnit : Option JsNum
  cost : Option JsNum
  expiry : Option String
  expirationDate : Option String
  purchaseDate : Option String
  createdDate : Option String
  deriving DecidableEq, Repr

/-- Embeds the next-id scan of `InventoryItem.add`. -/
def maxInvSuffix (items : List InventoryItem) : ℕ :=
  (items.map (fun i => inventoryIdSuffix i.inventoryId)).foldl max 0

/-- Embeds `Number(cost ?? pricePerUnit ?? 0)` (nullish coalescing on the
raw fields, then coercion). -/
def invCostValue (p : InvPayload) : JsNum :=
  match p.cost with
  | some v => v
  | none =>
    match p.pricePerUnit with
    | some v => v
    | none => some 0

/-- The `newItemRaw` object literal built inside `InventoryItem.add`:
alias resolution (`ingredientName || name`, `expirationDate || expiry`,
`cost ?? pricePerUnit`), `location` defaulting to `"Unknown"`,
`purchaseDate` defaulting to today, and the caller-overridable
`createdDate`. -/
def invAddInput (items : List InventoryItem) (p : InvPayload) (today : String) :
    InvCtorInput :=
  { inventoryId := InventoryItem.formatId (maxInvSuffix items + 1)
    userId := some (jsTrim (p.userId.getD ""))
    ingredientName := some (jsTrim (jsOrS p.ingredientName (jsOrS p.name "")))
    quantity := p.quantity
    unit := some (jsTrim (p.unit.getD ""))
    category := some (jsTrim (p.category.getD ""))
    purchaseDate := jsOrS p.purchaseDate today
    expirationDate := jsOrS p.expirationDate (jsOrS p.expiry "")
    location := some (jsTrim (jsOrS p.location "Unknown"))
    cost := invCostValue p
    createdDate := some (jsOrS p.createdDate today) }

/-- Embeds `InventoryItem.add`: the two early required-field checks, the
next-id scan, construction of `newItemRaw`, validation through the
constructor, and the push that only happens on success. -/
def InventoryItem.add (items : List InventoryItem) (p : InvPayload) (today : String) :
    Except String InventoryItem × List InventoryItem :=
  if jsTrim (jsOrS p.ingredientName (jsOrS p.name "")) = "" then
    (.error "ingredientName (or name) is required", items)
  else if jsTrim (p.userId.getD "") = "" then (.error "userId is required", items)
  else
    match inventoryCtor (invAddInput items p today) today with
    | .error e => (.error e, items)
    | .ok v => (.ok v, items ++ [v])

/-- The §3 data-model constraints on the payload-controlled InventoryItem
fields, after alias resolution and defaulting (so relative to `today`). -/
def invPayloadValidB (p : InvPayload) (today : String) : Bool :=
  jsTrim (jsOrS p.ingredientName (jsOrS p.name "")) != "" &&
  jsTrim (p.userId.getD "") != "" &&
  (match p.quantity with | some q => decide (0 ≤ q) | none => false) &&
  (match invCostValue p with | some c => decide (0 ≤ c) | none => false) &&
  jsTrim (p.unit.getD "") != "" &&
  jsTrim (p.category.getD "") != "" &&
  jsTrim (jsOrS p.location "Unknown") != "" &&
  (jsOrS p.purchaseDate today == "" || isYmd (jsOrS p.purchaseDate today)) &&
  (jsOrS p.expirationDate (jsOrS p.expiry "") == "" ||
    isYmd (jsOrS p.expirationDate (jsOrS p.expiry ""))) &&
  isYmd (jsOrS p.createdDate today) &&
  !(jsOrS p.purchaseDate today != "" &&
    jsOrS p.expirationDate (jsOrS p.expiry "") != "" &&
    strLtB (jsOrS p.expirationDate (jsOrS p.expiry "")) (jsOrS p.purchaseDate today))

/-- Embeds the `POST /inventory-00000001` route body: inject the default
`userId` when the field is missing or empty, then call the repository. -/
def routeNormalizeBody (body : InvPayload) : InvPayload :=
  if body.userId.getD "" = "" then
    { body with userId := some "TakumiWatanabe-00000001" }
  else body

/-- Embeds the `POST /inventory-00000001` handler up to the repository call. -/
def routeInventoryAdd (items : List InventoryItem) (body : InvPayload) (today : String) :
    Except String InventoryItem × List InventoryItem :=
  InventoryItem.add items (routeNormalizeBody body) today

/- ### Dates and the derived-fields projection -/

/-- Day number of a civil date (days since 1970-01-01, Gregorian), the value
`new Date("YYYY-MM-DD").getTime() / 86400000` denotes. -/
def daysFromCivil (y m d : ℕ) : ℤ :=
  let yy : ℤ := if m ≤ 2 then (y : ℤ) - 1 else (y : ℤ)
  let era : ℤ := Int.fdiv yy 400
  let yoe : ℤ := yy - era * 400
  let mp : ℤ := ((m : ℤ) + 9) % 12
  let doy : ℤ := Int.fdiv (153 * mp + 2) 5 + (d : ℤ) - 1
  let doe : ℤ := yoe * 365 + Int.fdiv yoe 4 - Int.fdiv yoe 100 + doy
  era * 146097 + doe - 719468

/-- Embeds `new Date(s)` on a `YYYY-MM-DD` string: the UTC day number, or
`none` for an unparsable string (JS Invalid Date / NaN). -/
def parseYmd (s : String) : Option ℤ :=
  match s.data with
  | [y1, y2, y3, y4, '-', m1, m2, '-', d1, d2] =>
    if ([y1, y2, y3, y4, m1, m2, d1, d2].all Char.isDigit) then
      let y := digitsToNat [y1, y2, y3, y4]
      let m := digitsToNat [m1, m2]
      let d := digitsToNat [d1, d2]
      if 1 ≤ m && m ≤ 12 && 1 ≤ d && d ≤ 31 then some (daysFromCivil y m d) else none
    else none
  | _ => none

/-- An inventory record enriched for the dashboard: the spread `{ ...i }`
keeps every stored field (`base`), and the two derived fields ride along. -/
structure DerivedInventoryItem where
  base : InventoryItem
  daysLeft : Option ℤ
  lineValue : ℚ
  deriving DecidableEq, Repr

/-- Embeds `InventoryItem.withDerived`: `asOf` is the current timestamp in
milliseconds, `startOfDay` truncates it to midnight, and each item gets
`daysLeft = ceil((expirationDate - midnight) / 86400000)` (null for an
absent or unparsable expiration date) and `lineValue = quantity * cost`,
without touching the stored record. -/
def InventoryItem.withDerived (items : List InventoryItem) (asOf : ℚ) :
    List DerivedInventoryItem :=
  let base : ℤ := Int.floor (asOf / 86400000)
  items.map (fun i =>
    { base := i
      daysLeft :=
        if i.expirationDate = "" then none
        else
          match parseYmd i.expirationDate with
          | none => none
          | some e =>
            some (Int.ceil ((((e * 86400000 : ℤ) : ℚ) - ((86400000 * base : ℤ) : ℚ)) / 86400000))
      lineValue := i.quantity * i.cost })

/- ### Query engine: search, scale (advanced routes) -/

/-- Does `hay` start with `n`? -/
def listStartsWith : List Char → List Char → Bool
  | [], _ => true
  | _ :: _, [] => false
  | a :: as, b :: bs => a == b && listStartsWith as bs

/-- Does `n` occur contiguously inside `hay`?  (JS `String.prototype.includes`.) -/
def listContainsSub (n : List Char) : List Char → Bool
  | [] => n.isEmpty
  | c :: t => listStartsWith n (c :: t) || listContainsSub n t

/-- Embeds the helper `textIncludes`: case-insensitive substring check via
`toLowerCase` and `includes`. -/
def textIncludes (haystack needle : String) : Bool :=
  listContainsSub (needle.data.map Char.toLower) (haystack.data.map Char.toLower)

/-- Embeds the filter body of `GET /search-recipe-00000001`: an empty query
matches everything, otherwise the query must appear in one of the four
scalar fields or in some single ingredients or instructions entry. -/
def searchFilter (recipes : List Recipe) (query : String) : List Recipe :=
  recipes.filter (fun r =>
    if query = "" then true
    else
      textIncludes r.title query || textIncludes r.chef query ||
      textIncludes r.mealType query || textIncludes r.cuisineType query ||
      r.ingredients.any (fun x => textIncludes x query) ||
      r.instructions.any (fun x => textIncludes x query))

/-- Embeds the `hasSearched` flag: `typeof req.query.query !== "undefined"
|| typeof req.query.scale !== "undefined"` (presence of either request
parameter, even as an empty string). -/
def hasSearchTriggered (queryParam scaleParam : Option String) : Bool :=
  queryParam.isSome || scaleParam.isSome

/-- Modelled from the spec side for the refinement statement of the search
claim: the query is a case-insensitive substring of the given string. -/
def CiSubstrOf (q s : String) : Prop :=
  (q.data.map Char.toLower) <:+: (s.data.map Char.toLower)

/-- Modelled from the spec side: a record matches a query when the query is
empty or is a case-insensitive substring of `title`, `chef`, `mealType`,
`cuisineType`, or of some single `ingredients` or `instructions` entry. -/
def SpecSearchMatch (q : String) (r : Recipe) : Prop :=
  q = "" ∨ CiSubstrOf q r.title ∨ CiSubstrOf q r.chef ∨ CiSubstrOf q r.mealType ∨
  CiSubstrOf q r.cuisineType ∨ (∃ x ∈ r.ingredients, CiSubstrOf q x) ∨
  ∃ x ∈ r.instructions, CiSubstrOf q x

/-- Embeds `Math.round` and the rounding scheme of `toFixed` for
non-negative scaled hundredths: nearest, ties to the larger value. -/
def jsRound (x : ℚ) : ℤ :=
  Int.floor (x + 1 / 2)

/-- Embeds the scale sanitization of the search route: a non-finite
`parseFloat(req.query.scale)` (including an absent parameter) falls back to
`1`, a finite one is clamped into `[0.25, 5]`. -/
def sanitizeScale (raw : JsNum) : ℚ :=
  match raw with
  | some x => min 5 (max (1 / 4) x)
  | none => 1

/-- Embeds `Math.max(1, Math.round((r.servings || 1) * scale))`. -/
def servingsScaled (servings scale : ℚ) : ℤ :=
  max 1 (jsRound ((if servings = 0 then 1 else servings) * scale))

/-- Consume a maximal run of decimal digits. -/
def takeDigits : List Char → List Char × List Char
  | [] => ([], [])
  | c :: cs =>
    if c.isDigit then
      let p := takeDigits cs
      (c :: p.1, p.2)
    else ([], c :: cs)

/-- Embeds the match of `/^\s*([0-9]+(?:\.[0-9]+)?)\s*(.*)$/` on a line:
the integer-part value, fraction-part value and length of the leading
numeric token, and the remainder.  The match fails when no leading digits
exist or when the remainder would have to contain a line terminator (which
`.` cannot match). -/
def parseLeadTok (l : List Char) : Option (ℕ × ℕ × ℕ × List Char) :=
  let afterWs := l.dropWhile isJsWs
  let ip := takeDigits afterWs
  if ip.1.isEmpty then none
  else
    let fp :=
      match ip.2 with
      | '.' :: rest =>
        let dp := takeDigits rest
        if dp.1.isEmpty then (([] : List Char), ip.2) else dp
      | _ => ([], ip.2)
    let rest := fp.2.dropWhile isJsWs
    if rest.contains '\n' || rest.contains '\r' then none
    else
      some (digitsToNat ip.1, digitsToNat fp.1, fp.1.length, rest)

/-- Decimal rendering of `k` hundredths as JS `String(+(x).toFixed(2))`
prints it: trailing fractional zeros dropped. -/
def showCentiNat (k : ℕ) : String :=
  let i := k / 100
  let f := k % 100
  if f = 0 then Nat.repr i
  else if f % 10 = 0 then Nat.repr i ++ "." ++ Nat.repr (f / 10)
  else if f < 10 then Nat.repr i ++ ".0" ++ Nat.repr f
  else Nat.repr i ++ "." ++ Nat.repr f

/-- Signed version of `showCentiNat`. -/
def showCenti (k : ℤ) : String :=
  if k < 0 then "-" ++ showCentiNat (-k).toNat else showCentiNat k.toNat

/-- Embeds the helper `scaleLine`: if the line starts with a numeric token,
replace it by the token times the scale rounded to 2 decimals, joined to
the remainder with a single space (template literal), and trim; otherwise
return the line untouched. -/
def scaleLine (line : String) (scale : ℚ) : String :=
  match parseLeadTok line.data with
  | none => line
  | some tok =>
    jsTrim (showCenti (jsRound (((tok.1 : ℚ) + (tok.2.1 : ℚ) / (10 : ℚ) ^ tok.2.2.1) *
      scale * 100)) ++ " " ++ String.mk tok.2.2.2)

/-- First-character test backing the pass-through case of the scaling
claim: does the line start (after optional whitespace) with a digit? -/
def hasLeadingNumber (line : String) : Bool :=
  match line.data.dropWhile isJsWs with
  | c :: _ => c.isDigit
  | [] => false

/- ### Reference-passing model of the constructor call (for the copy claim) -/

/-- A caller-owned heap of string arrays, addressed by index. -/
abbrev ArrStore := List (List String)

/-- A constructor call site whose `ingredients` and `instructions` are
references into a caller-owned heap. -/
structure RecipeHeapPayload where
  recipeId : String
  title : Option String
  chef : Option String
  ingredientsRef : ℕ
  instructionsRef : ℕ
  mealType : Option String
  cuisineType : Option String
  prepTime : JsNum
  difficulty : Option String
  servings : JsNum
  createdDate : Option String
  deriving DecidableEq, Repr

/-- Embeds `new Recipe({...})` with array arguments passed by reference:
`this.ingredients = ingredients.slice()` dereferences the caller's array at
construction time and stores the copied value (not the reference), so the
resulting record is a plain value independent of the heap. -/
def recipeCtorViaRefs (store : ArrStore) (p : RecipeHeapPayload) (today : String) :
    Except String Recipe :=
  recipeCtor
    { recipeId := p.recipeId
      title := p.title
      chef := p.chef
      ingredients := store.getD p.ingredientsRef []
      instructions := store.getD p.instructionsRef []
      mealType := p.mealType
      cuisineType := p.cuisineType
      prepTime := p.prepTime
      difficulty := p.difficulty
      servings := p.servings
      createdDate := p.createdDate } today

/- ### Helper lemmas -/

theorem trimChars_idem (l : List Char) : trimChars (trimChars l) = trimChars l := by
  unfold trimChars
  have hpre := List.rdropWhile_prefix (p := isJsWs) (l := l.dropWhile isJsWs)
  have h1 : List.dropWhile isJsWs (List.rdropWhile isJsWs (l.dropWhile isJsWs)) =
      List.rdropWhile isJsWs (l.dropWhile isJsWs) := by
    rw [List.dropWhile_eq_self_iff]
    intro hl
    obtain ⟨s, hs⟩ := hpre
    have hm0 : 0 < (l.dropWhile isJsWs).length := by
      rw [← hs, List.length_append]
      exact Nat.lt_of_lt_of_le hl (Nat.le_add_right _ _)
    have h0 : (List.rdropWhile isJsWs (l.dropWhile isJsWs))[0]? =
        (l.dropWhile isJsWs)[0]? := by
      conv_rhs => rw [← hs]
      exact (List.getElem?_append_left hl).symm
    have e1 : (List.rdropWhile isJsWs (l.dropWhile isJsWs)).get ⟨0, hl⟩ =
        (l.dropWhile isJsWs).get ⟨0, hm0⟩ := by
      rw [List.getElem?_eq_getElem hl, List.getElem?_eq_getElem hm0] at h0
      simpa using Option.some.inj h0
    rw [e1]
    exact List.dropWhile_get_zero_not isJsWs l hm0
  rw [h1, List.rdropWhile_idempotent]

theorem jsTrim_idem (s : String) : jsTrim (jsTrim s) = jsTrim s := by
  unfold jsTrim
  simp [trimChars_idem]

theorem recipeCtor_eq_ok_iff {inp : RecipeCtorInput} {today : String} {r : Recipe} :
    recipeCtor inp today = .ok r ↔
      (recipeCtorCondB inp today = true ∧ r = recipeCtorResult inp today) := by
  unfold recipeCtor recipeCtorCondB
  cases hpt : inp.prepTime with
  | none =>
    split_ifs <;> simp [bne_iff_ne]
  | some pt =>
    cases hsv : inp.servings with
    | none =>
      split_ifs <;> simp_all [bne_iff_ne, not_le] <;> (try (split <;> simp))
    | some sv =>
      split_ifs <;> simp_all [bne_iff_ne, not_le, decide_eq_true_eq] <;>
        first
        | exact eq_comm
        | (split <;> simp)
        | (split_ifs <;> simp_all [not_le] <;> tauto)

theorem ite_error_eq_ok_iff {α : Type} {c : Prop} [Decidable c] {e : String}
    {rest : Except String α} {r : α} :
    (if c then Except.error e else rest) = Except.ok r ↔ (¬c ∧ rest = Except.ok r) := by
  split_ifs with hc <;> simp [hc]

set_option maxHeartbeats 1000000 in
theorem inventoryCtor_eq_ok_iff {inp : InvCtorInput} {today : String} {r : InventoryItem} :
    inventoryCtor inp today = .ok r ↔
      (invCtorCondB inp today = true ∧ r = invCtorResult inp today) := by
  obtain ⟨iid, uid, ing, qty, un, cat, pd, ed, loc, cst, cd⟩ := inp
  unfold inventoryCtor invCtorCondB
  cases qty with
  | none =>
    dsimp only
    rw [ite_error_eq_ok_iff, ite_error_eq_ok_iff, ite_error_eq_ok_iff, ite_error_eq_ok_iff,
      ite_error_eq_ok_iff, ite_error_eq_ok_iff]
    simp
  | some q =>
    cases cst with
    | none =>
      dsimp only
      rw [ite_error_eq_ok_iff, ite_error_eq_ok_iff, ite_error_eq_ok_iff, ite_error_eq_ok_iff,
        ite_error_eq_ok_iff, ite_error_eq_ok_iff, ite_error_eq_ok_iff]
      simp
    | some c =>
      dsimp only
      rw [ite_error_eq_ok_iff, ite_error_eq_ok_iff, ite_error_eq_ok_iff, ite_error_eq_ok_iff,
        ite_error_eq_ok_iff, ite_error_eq_ok_iff, ite_error_eq_ok_iff, ite_error_eq_ok_iff,
        ite_error_eq_ok_iff, ite_error_eq_ok_iff, ite_error_eq_ok_iff, ite_error_eq_ok_iff]
      simp only [Except.ok.injEq, Bool.and_eq_true, bne_iff_ne, ne_eq, decide_eq_true_eq,
        Bool.or_eq_true, beq_iff_eq, Bool.not_eq_true', Bool.not_eq_true, Bool.not_eq_false,
        not_lt, not_and_or, not_not, and_assoc]
      constructor
      · rintro ⟨h1, h2, h3, h4, h5, h6, h7, h8, h9, h10, h11, h12, hr⟩
        refine ⟨h1, h2, h3, h4, h5, h6, h7, h8, h9, h10, h11, ?_, hr.symm⟩
        rcases h12 with h | h | h <;> simp [h]
      · rintro ⟨h1, h2, h3, h4, h5, h6, h7, h8, h9, h10, h11, h12, hr⟩
        refine ⟨h1, h2, h3, h4, h5, h6, h7, h8, h9, h10, h11, ?_, hr.symm⟩
        simp at h12
        tauto

theorem recipeAdd_ok_iff {l : List Recipe} {p : RecipePayload} {t : String} {r : Recipe} :
    (Recipe.add l p t).1 = .ok r ↔
      (jsTrim (p.title.getD "") ≠ "" ∧ jsTrim (p.chef.getD "") ≠ "" ∧
        recipeCtorCondB (recipeAddInput l p t) t = true ∧
        r = recipeCtorResult (recipeAddInput l p t) t) := by
  unfold Recipe.add
  split_ifs with h1 h2
  · simp [h1]
  · simp [h2]
  · cases hc : recipeCtor (recipeAddInput l p t) t with
    | error e =>
      constructor
      · intro h
        exact absurd h (by simp)
      · rintro ⟨-, -, hcond, rfl⟩
        exact absurd (recipeCtor_eq_ok_iff.mpr ⟨hcond, rfl⟩) (by simp [hc])
    | ok v =>
      have hv := recipeCtor_eq_ok_iff.mp hc
      simp only [Except.ok.injEq]
      constructor
      · rintro rfl
        exact ⟨h1, h2, hv.1, hv.2⟩
      · rintro ⟨-, -, -, rfl⟩
        exact hv.2

theorem recipeAdd_snd_of_error {l : List Recipe} {p : RecipePayload} {t : String}
    (h : ∀ r, (Recipe.add l p t).1 ≠ .ok r) : (Recipe.add l p t).2 = l := by
  unfold Recipe.add
  split_ifs with h1 h2
  · rfl
  · rfl
  · cases hc : recipeCtor (recipeAddInput l p t) t with
    | error e => rfl
    | ok v =>
      exfalso
      apply h v
      unfold Recipe.add
      rw [if_neg h1, if_neg h2, hc]

theorem recipeAdd_snd_of_ok {l : List Recipe} {p : RecipePayload} {t : String} {r : Recipe}
    (h : (Recipe.add l p t).1 = .ok r) : (Recipe.add l p t).2 = l ++ [r] := by
  obtain ⟨h1, h2, hcond, hr⟩ := recipeAdd_ok_iff.mp h
  have hc : recipeCtor (recipeAddInput l p t) t =
      .ok (recipeCtorResult (recipeAddInput l p t) t) :=
    recipeCtor_eq_ok_iff.mpr ⟨hcond, rfl⟩
  unfold Recipe.add
  rw [if_neg h1, if_neg h2, hc]
  simp [hr]

theorem invAdd_ok_iff {l : List InventoryItem} {p : InvPayload} {t : String}
    {r : InventoryItem} :
    (InventoryItem.add l p t).1 = .ok r ↔
      (jsTrim (jsOrS p.ingredientName (jsOrS p.name "")) ≠ "" ∧
        jsTrim (p.userId.getD "") ≠ "" ∧
        invCtorCondB (invAddInput l p t) t = true ∧
        r = invCtorResult (invAddInput l p t) t) := by
  unfold InventoryItem.add
  split_ifs with h1 h2
  · simp [h1]
  · simp [h2]
  · cases hc : inventoryCtor (invAddInput l p t) t with
    | error e =>
      constructor
      · intro h
        exact absurd h (by simp)
      · rintro ⟨-, -, hcond, rfl⟩
        exact absurd (inventoryCtor_eq_ok_iff.mpr ⟨hcond, rfl⟩) (by simp [hc])
    | ok v =>
      have hv := inventoryCtor_eq_ok_iff.mp hc
      simp only [Except.ok.injEq]
      constructor
      · rintro rfl
        exact ⟨h1, h2, hv.1, hv.2⟩
      · rintro ⟨-, -, -, rfl⟩
        exact hv.2

theorem invAdd_snd_of_error {l : List InventoryItem} {p : InvPayload} {t : String}
    (h : ∀ r, (InventoryItem.add l p t).1 ≠ .ok r) : (InventoryItem.add l p t).2 = l := by
  unfold InventoryItem.add
  split_ifs with h1 h2
  · rfl
  · rfl
  · cases hc : inventoryCtor (invAddInput l p t) t with
    | error e => rfl
    | ok v =>
      exfalso
      apply h v
      unfold InventoryItem.add
      rw [if_neg h1, if_neg h2, hc]

theorem invAdd_snd_of_ok {l : List InventoryItem} {p : InvPayload} {t : String}
    {r : InventoryItem} (h : (InventoryItem.add l p t).1 = .ok r) :
    (InventoryItem.add l p t).2 = l ++ [r] := by
  obtain ⟨h1, h2, hcond, hr⟩ := invAdd_ok_iff.mp h
  have hc : inventoryCtor (invAddInput l p t) t =
      .ok (invCtorResult (invAddInput l p t) t) :=
    inventoryCtor_eq_ok_iff.mpr ⟨hcond, rfl⟩
  unfold InventoryItem.add
  rw [if_neg h1, if_neg h2, hc]
  simp [hr]

theorem foldl_max_eq_zero {xs : List ℕ} (h : ∀ x ∈ xs, x = 0) : xs.foldl max 0 = 0 := by
  induction xs with
  | nil => rfl
  | cons a as ih =>
    have ha : a = 0 := h a (List.mem_cons_self a as)
    have : ∀ x ∈ as, x = 0 := fun x hx => h x (List.mem_cons_of_mem a hx)
    simp [List.foldl_cons, ha, ih this]

theorem recipeIdSuffix_eq_zero {s : String} (h : isRecipeIdFormat s = false) :
    recipeIdSuffix s = 0 := by
  unfold recipeIdSuffix
  unfold isRecipeIdFormat at h
  split
  next ds heq =>
    rw [heq] at h
    simp only at h
    simp [h]
  next => rfl

theorem inventoryIdSuffix_eq_zero {s : String} (h : isInventoryIdFormat s = false) :
    inventoryIdSuffix s = 0 := by
  unfold inventoryIdSuffix
  unfold isInventoryIdFormat at h
  split
  next ds heq =>
    rw [heq] at h
    simp only at h
    simp [h]
  next => rfl

theorem maxRecipeSuffix_eq_zero {l : List Recipe}
    (h : ∀ r ∈ l, isRecipeIdFormat r.recipeId = false) : maxRecipeSuffix l = 0 := by
  unfold maxRecipeSuffix
  apply foldl_max_eq_zero
  intro x hx
  obtain ⟨r, hr, rfl⟩ := List.mem_map.mp hx
  exact recipeIdSuffix_eq_zero (h r hr)

theorem maxInvSuffix_eq_zero {l : List InventoryItem}
    (h : ∀ i ∈ l, isInventoryIdFormat i.inventoryId = false) : maxInvSuffix l = 0 := by
  unfold maxInvSuffix
  apply foldl_max_eq_zero
  intro x hx
  obtain ⟨i, hi, rfl⟩ := List.mem_map.mp hx
  exact inventoryIdSuffix_eq_zero (h i hi)

theorem recipeAdd_ok_of_valid {l : List Recipe} {p : RecipePayload} {t : String}
    (hv : recipePayloadValidB p = true) (ht : isYmd t = true)
    (hm : maxRecipeSuffix l = 0) :
    (Recipe.add l p t).1 = .ok (recipeCtorResult (recipeAddInput l p t) t) := by
  unfold recipePayloadValidB at hv
  simp only [Bool.and_eq_true, bne_iff_ne, ne_eq] at hv
  obtain ⟨⟨⟨⟨hti, hch⟩, hpt⟩, hdi⟩, hsv⟩ := hv
  apply recipeAdd_ok_iff.mpr
  refine ⟨hti, hch, ?_, rfl⟩
  unfold recipeCtorCondB recipeAddInput
  simp only [hm, Option.getD_some, jsTrim_idem]
  refine (by decide : isRecipeIdFormat (Recipe.formatId (0 + 1)) = true) |>.symm ▸ ?_
  simp [hti, hch, hpt, hdi, hsv, ht, bne_iff_ne]
  simpa using hdi

theorem recipeValid_of_add_ok {l : List Recipe} {p : RecipePayload} {t : String} {r : Recipe}
    (h : (Recipe.add l p t).1 = .ok r) : recipePayloadValidB p = true := by
  obtain ⟨h1, h2, hcond, -⟩ := recipeAdd_ok_iff.mp h
  unfold recipeCtorCondB recipeAddInput at hcond
  simp only [Option.getD_some, jsTrim_idem, Bool.and_eq_true, bne_iff_ne, ne_eq] at hcond
  obtain ⟨⟨⟨⟨⟨⟨-, -⟩, -⟩, hpt⟩, hdi⟩, hsv⟩, -⟩ := hcond
  unfold recipePayloadValidB
  simp [h1, h2, hpt, hdi, hsv, bne_iff_ne]
  simpa using hdi

theorem invAdd_ok_of_valid {l : List InventoryItem} {p : InvPayload} {t : String}
    (hv : invPayloadValidB p t = true) (hm : maxInvSuffix l = 0) :
    (InventoryItem.add l p t).1 = .ok (invCtorResult (invAddInput l p t) t) := by
  unfold invPayloadValidB at hv
  simp only [Bool.and_eq_true, bne_iff_ne, ne_eq] at hv
  obtain ⟨⟨⟨⟨⟨⟨⟨⟨⟨⟨hing, huid⟩, hq⟩, hc⟩, hun⟩, hcat⟩, hloc⟩, hpd⟩, hed⟩, hcd⟩, hcr⟩ := hv
  apply invAdd_ok_iff.mpr
  refine ⟨hing, huid, ?_, rfl⟩
  unfold invCtorCondB invAddInput
  simp only [hm, Option.getD_some, jsTrim_idem]
  refine (by decide : isInventoryIdFormat (InventoryItem.formatId (0 + 1)) = true) |>.symm ▸ ?_
  simp [hing, huid, hq, hc, hun, hcat, hloc, hpd, hed, hcd, hcr, bne_iff_ne]

theorem invValid_of_add_ok {l : List InventoryItem} {p : InvPayload} {t : String}
    {r : InventoryItem} (h : (InventoryItem.add l p t).1 = .ok r) :
    invPayloadValidB p t = true := by
  obtain ⟨h1, h2, hcond, -⟩ := invAdd_ok_iff.mp h
  unfold invCtorCondB invAddInput at hcond
  simp only [Option.getD_some, jsTrim_idem, Bool.and_eq_true, bne_iff_ne, ne_eq] at hcond
  obtain ⟨⟨⟨⟨⟨⟨⟨⟨⟨⟨⟨-, -⟩, -⟩, hun⟩, hcat⟩, hloc⟩, hq⟩, hc⟩, hpd⟩, hed⟩, hcd⟩, hcr⟩ := hcond
  unfold invPayloadValidB
  simp [h1, h2, hun, hcat, hloc, hq, hc, hpd, hed, hcd, hcr, bne_iff_ne]

theorem listStartsWith_iff {n h : List Char} : listStartsWith n h = true ↔ n <+: h := by
  induction n generalizing h with
  | nil => simp [listStartsWith]
  | cons a as ih =>
    cases h with
    | nil => simp [listStartsWith]
    | cons b bs => simp [listStartsWith, List.cons_prefix_cons, ih, beq_iff_eq]

theorem listContainsSub_iff {n h : List Char} : listContainsSub n h = true ↔ n <:+: h := by
  induction h with
  | nil => simp [listContainsSub, List.isEmpty_iff]
  | cons c t ih => simp [listContainsSub, List.infix_cons_iff, listStartsWith_iff, ih]

theorem textIncludes_iff {hay q : String} : textIncludes hay q = true ↔ CiSubstrOf q hay := by
  unfold textIncludes CiSubstrOf
  exact listContainsSub_iff

theorem ceil_whole_days (e b : ℤ) :
    Int.ceil (((e : ℚ) * 86400000 - 86400000 * (b : ℚ)) / 86400000) = e - b := by
  have h : ((e : ℚ) * 86400000 - 86400000 * (b : ℚ)) / 86400000 = ((e - b : ℤ) : ℚ) := by
    push_cast
    ring
  rw [h, Int.ceil_intCast]

theorem floor_day_of_time {d : ℤ} {t : ℚ} (h0 : 0 ≤ t) (h1 : t < 86400000) :
    Int.floor (((d : ℚ) * 86400000 + t) / 86400000) = d := by
  rw [Int.floor_eq_iff]
  constructor
  · rw [le_div_iff₀ (by norm_num)]
    nlinarith
  · rw [div_lt_iff₀ (by norm_num)]
    nlinarith

theorem parseLead_none_of_no_digit {line : String} (h : hasLeadingNumber line = false) :
    parseLeadTok line.data = none := by
  unfold hasLeadingNumber at h
  unfold parseLeadTok
  cases hd : line.data.dropWhile isJsWs with
  | nil => simp [hd, takeDigits]
  | cons c cs =>
    rw [hd] at h
    simp only at h
    simp [hd, takeDigits, h]

theorem scaleLine_eval (line : String) (iv fv fl : ℕ) (rest : List Char) (scale : ℚ) (k : ℤ)
    (hp : parseLeadTok line.data = some (iv, fv, fl, rest))
    (hk : jsRound (((iv : ℚ) + (fv : ℚ) / (10 : ℚ) ^ fl) * scale * 100) = k) :
    scaleLine line scale = jsTrim (showCenti k ++ " " ++ String.mk rest) := by
  unfold scaleLine
  rw [hp]
  dsimp only
  rw [hk]

/- ### Concrete fixtures (seed-data shaped) used by witnesses -/

/-- A valid add-recipe form body, shaped like the seed carbonara recipe. -/
def samplePayloadR : RecipePayload :=
  { title := some "Classic Spaghetti Carbonara"
    chef := some "TakumiWatanabe"
    mealType := some "Dinner"
    cuisineType := some "Italian"
    prepTime := some 25
    difficulty := some "Medium"
    servings := some 4
    ingredients := some "400g spaghetti, 200g pancetta"
    instructions := some "Boil salted water for pasta"
    createdDate := none }

/-- A valid add-inventory form body, shaped like the seed tomato item. -/
def samplePayloadI : InvPayload :=
  { userId := some "TakumiWatanabe"
    name := none
    ingredientName := some "Fresh Tomatoes"
    category := some "Vegetables"
    location := some "Fridge"
    quantity := some 8
    unit := some "pieces"
    pricePerUnit := none
    cost := some (some 6)
    expiry := none
    expirationDate := some "2025-07-25"
    purchaseDate := some "2025-07-18"
    createdDate := none }

/-- The seed tomato inventory record (quantity 8, cost 6.4, expiring
2025-07-25). -/
def sampleTomato : InventoryItem :=
  { inventoryId := "I-00001"
    userId := "TakumiWatanabe"
    ingredientName := "Fresh Tomatoes"
    quantity := 8
    unit := "pieces"
    category := "Vegetables"
    purchaseDate := "2025-07-18"
    expirationDate := "2025-07-25"
    location := "Fridge"
    cost := 32 / 5
    createdDate := "2025-07-18" }

/-- A stored recipe whose id does not match the R-00001 shape. -/
def strayRecipe : Recipe :=
  { recipeId := "oops"
    title := "T"
    chef := "C"
    ingredients := []
    instructions := []
    mealType := ""
    cuisineType := ""
    prepTime := 1
    difficulty := "Easy"
    servings := 1
    createdDate := "2025-07-22" }

/-- A stored inventory record whose id does not match the I-00001 shape. -/
def strayItem : InventoryItem :=
  { inventoryId := "bad-id"
    userId := "u"
    ingredientName := "x"
    quantity := 1
    unit := "kg"
    category := "c"
    purchaseDate := ""
    expirationDate := ""
    location := "l"
    cost := 1
    createdDate := "2025-07-22" }

/-- A recipe payload violating the data model: whitespace-only title. -/
def badPayloadR : RecipePayload :=
  { samplePayloadR with title := some "   " }

/-- An inventory payload violating the data model: negative quantity. -/
def badPayloadI : InvPayload :=
  { samplePayloadI with quantity := some (-1) }

/-- The inventory body with a caller-supplied createdDate override. -/
def overridePayloadI : InvPayload :=
  { samplePayloadI with createdDate := some "2020-01-01" }

/-- The inventory body with no userId at all. -/
def noUserPayloadI : InvPayload :=
  { samplePayloadI with userId := none }

/-- A caller-owned heap holding one ingredients and one instructions array. -/
def sampleStore : ArrStore :=
  [["400g spaghetti", "Black pepper"], ["Boil water"]]

/-- A constructor call site passing the two heap arrays by reference. -/
def sampleHeapPayload : RecipeHeapPayload :=
  { recipeId := "R-00001"
    title := some "Carbonara"
    chef := some "Tak"
    ingredientsRef := 0
    instructionsRef := 1
    mealType := none
    cuisineType := none
    prepTime := some 25
    difficulty := some "Medium"
    servings := some 4
    createdDate := some "2025-07-20" }

/-- The record the constructor builds from `sampleStore` and
`sampleHeapPayload`. -/
def sampleHeapRecipe : Recipe :=
  { recipeId := "R-00001"
    title := "Carbonara"
    chef := "Tak"
    ingredients := ["400g spaghetti", "Black pepper"]
    instructions := ["Boil water"]
    mealType := ""
    cuisineType := ""
    prepTime := 25
    difficulty := "Medium"
    servings := 4
    createdDate := "2025-07-20" }

/- ### Claim theorems -/

/-- C1: for every recipe collection and valid Recipe payload, `add` assigns
the new record a recipeId equal to `formatId` of (maximum numeric suffix of
the stored ids, counting non-matching ids as 0) plus one; the first add into
an empty collection yields "R-00001". -/
theorem recipeAdd_nextId_c1 :
    (∀ (l : List Recipe) (p : RecipePayload) (t : String) (r : Recipe),
        (Recipe.add l p t).1 = .ok r →
        r.recipeId = Recipe.formatId (maxRecipeSuffix l + 1)) ∧
    (∀ (p : RecipePayload) (t : String),
        recipePayloadValidB p = true → isYmd t = true →
        (Recipe.add [] p t).1 = .ok (recipeCtorResult (recipeAddInput [] p t) t) ∧
        (recipeCtorResult (recipeAddInput [] p t) t).recipeId = "R-00001") := by
  constructor
  · intro l p t r h
    obtain ⟨-, -, -, hr⟩ := recipeAdd_ok_iff.mp h
    rw [hr]
    rfl
  · intro p t hv ht
    refine ⟨recipeAdd_ok_of_valid hv ht rfl, ?_⟩
    exact (by decide : Recipe.formatId (maxRecipeSuffix ([] : List Recipe) + 1) = "R-00001")

/-- C1 witness: the carbonara-shaped payload added to the empty collection on
2025-07-22 receives id "R-00001". -/
theorem recipeAdd_nextId_c1_witness :
    (recipePayloadValidB samplePayloadR = true ∧ isYmd "2025-07-22" = true) ∧
    ((Recipe.add [] samplePayloadR "2025-07-22").1 =
        .ok (recipeCtorResult (recipeAddInput [] samplePayloadR "2025-07-22") "2025-07-22") ∧
      (recipeCtorResult (recipeAddInput [] samplePayloadR "2025-07-22")
        "2025-07-22").recipeId = "R-00001") :=
  ⟨⟨by decide, by decide⟩,
    recipeAdd_nextId_c1.2 samplePayloadR "2025-07-22" (by decide) (by decide)⟩

/-- C2: a payload violating any §3 data-model constraint makes `add` fail
(no ok result) and leaves the collection exactly as it was, for both
repositories. -/
theorem add_invalid_rejected_c2 :
    (∀ (l : List Recipe) (p : RecipePayload) (t : String),
        recipePayloadValidB p = false →
        (Recipe.add l p t).1.isOk = false ∧ (Recipe.add l p t).2 = l) ∧
    (∀ (l : List InventoryItem) (p : InvPayload) (t : String),
        invPayloadValidB p t = false →
        (InventoryItem.add l p t).1.isOk = false ∧ (InventoryItem.add l p t).2 = l) := by
  constructor
  · intro l p t hinv
    have hno : ∀ r, (Recipe.add l p t).1 ≠ .ok r := by
      intro r hok
      rw [recipeValid_of_add_ok hok] at hinv
      exact Bool.noConfusion hinv
    refine ⟨?_, recipeAdd_snd_of_error hno⟩
    cases hres : (Recipe.add l p t).1 with
    | error e => rfl
    | ok v => exact absurd hres (hno v)
  · intro l p t hinv
    have hno : ∀ r, (InventoryItem.add l p t).1 ≠ .ok r := by
      intro r hok
      rw [invValid_of_add_ok hok] at hinv
      exact Bool.noConfusion hinv
    refine ⟨?_, invAdd_snd_of_error hno⟩
    cases hres : (InventoryItem.add l p t).1 with
    | error e => rfl
    | ok v => exact absurd hres (hno v)

/-- C2 witness: a whitespace-only title and a negative quantity are both
rejected without touching the one-element collections. -/
theorem add_invalid_rejected_c2_witness :
    (recipePayloadValidB badPayloadR = false ∧
      invPayloadValidB badPayloadI "2025-07-22" = false) ∧
    ((Recipe.add [strayRecipe] badPayloadR "2025-07-22").1.isOk = false ∧
      (Recipe.add [strayRecipe] badPayloadR "2025-07-22").2 = [strayRecipe]) ∧
    ((InventoryItem.add [strayItem] badPayloadI "2025-07-22").1.isOk = false ∧
      (InventoryItem.add [strayItem] badPayloadI "2025-07-22").2 = [strayItem]) :=
  ⟨⟨by decide, by decide⟩,
    add_invalid_rejected_c2.1 [strayRecipe] badPayloadR "2025-07-22" (by decide),
    add_invalid_rejected_c2.2 [strayItem] badPayloadI "2025-07-22" (by decide)⟩

/-- C3 counterexample: the code joins the scaled token and the remainder with
a space, so scaling "200g flour" by 0.5 yields "100 g flour", not the
claimed "100g flour". -/
theorem scaleLine_c3_counterexample :
    scaleLine "200g flour" (1 / 2) = "100 g flour" ∧
    scaleLine "200g flour" (1 / 2) ≠ "100g flour" := by
  have he : scaleLine "200g flour" (1 / 2) = "100 g flour" :=
    (scaleLine_eval "200g flour" 200 0 0 "g flour".data (1 / 2) 10000
      (by decide) (by unfold jsRound; norm_num)).trans (by decide)
  exact ⟨he, by rw [he]; decide⟩

/-- C3 (amended): a line starting with a numeric token is rewritten as the
token times the scale rounded to 2 decimals, joined to the remainder with a
single space (so "200g flour" at 0.5 becomes "100 g flour"); lines without a
leading numeric token pass through unchanged for every scale. -/
theorem scaleLine_c3_amended :
    (∀ scale : ℚ, scaleLine "Black pepper" scale = "Black pepper") ∧
    scaleLine "200g flour" (1 / 2) = "100 g flour" ∧
    scaleLine "200 g flour" (1 / 2) = "100 g flour" ∧
    scaleLine "4 large eggs" 2 = "8 large eggs" ∧
    scaleLine "1 tomato" (3 / 10) = "0.3 tomato" ∧
    (∀ (line : String) (scale : ℚ),
        hasLeadingNumber line = false → scaleLine line scale = line) := by
  have hpass : ∀ (line : String) (scale : ℚ),
      hasLeadingNumber line = false → scaleLine line scale = line := by
    intro line scale h
    unfold scaleLine
    rw [parseLead_none_of_no_digit h]
  refine ⟨fun scale => hpass "Black pepper" scale (by decide), ?_, ?_, ?_, ?_, hpass⟩
  · exact (scaleLine_eval "200g flour" 200 0 0 "g flour".data (1 / 2) 10000
      (by decide) (by unfold jsRound; norm_num)).trans (by decide)
  · exact (scaleLine_eval "200 g flour" 200 0 0 "g flour".data (1 / 2) 10000
      (by decide) (by unfold jsRound; norm_num)).trans (by decide)
  · exact (scaleLine_eval "4 large eggs" 4 0 0 "large eggs".data 2 800
      (by decide) (by unfold jsRound; norm_num)).trans (by decide)
  · exact (scaleLine_eval "1 tomato" 1 0 0 "tomato".data (3 / 10) 30
      (by decide) (by unfold jsRound; norm_num)).trans (by decide)

/-- C3 witness: a line with no leading digit is unchanged at scale 3. -/
theorem scaleLine_c3_amended_witness :
    hasLeadingNumber "Pinch of salt" = false ∧
    scaleLine "Pinch of salt" 3 = "Pinch of salt" :=
  ⟨by decide, scaleLine_c3_amended.2.2.2.2.2 "Pinch of salt" 3 (by decide)⟩

/-- C4 counterexample: the inventory repository stores a caller-supplied
createdDate ("optional override" in the source), so the claim that both
repositories ignore it fails. -/
theorem createdDate_c4_counterexample :
    ((InventoryItem.add [] overridePayloadI "2025-07-22").1.map
        (fun v => v.createdDate)) = .ok "2020-01-01" ∧
    ("2020-01-01" : String) ≠ "2025-07-22" := by
  constructor
  · decide
  · decide

/-- C4 (amended): `Recipe.add` stores createdDate equal to the current date
and ignores any caller-supplied value, while `InventoryItem.add` stores the
caller-supplied createdDate when present (falling back to the current date
when absent or empty). -/
theorem createdDate_c4_amended :
    (∀ (l : List Recipe) (p : RecipePayload) (t : String) (r : Recipe),
        (Recipe.add l p t).1 = .ok r → r.createdDate = t) ∧
    (∀ (l : List Recipe) (p : RecipePayload) (t : String) (c : Option String),
        Recipe.add l { p with createdDate := c } t = Recipe.add l p t) ∧
    (∀ (l : List InventoryItem) (p : InvPayload) (t : String) (r : InventoryItem),
        (InventoryItem.add l p t).1 = .ok r →
        r.createdDate = jsOrS p.createdDate t) := by
  refine ⟨?_, ?_, ?_⟩
  · intro l p t r h
    obtain ⟨-, -, -, hr⟩ := recipeAdd_ok_iff.mp h
    rw [hr]
    rfl
  · intro l p t c
    cases p
    rfl
  · intro l p t r h
    obtain ⟨-, -, -, hr⟩ := invAdd_ok_iff.mp h
    rw [hr]
    rfl

/-- C4 witness: a concrete recipe add stores today, and a concrete inventory
add with an override stores the override. -/
theorem createdDate_c4_amended_witness :
    (recipeCtorResult (recipeAddInput [] samplePayloadR "2025-07-22")
        "2025-07-22").createdDate = "2025-07-22" ∧
    (invCtorResult (invAddInput [] overridePayloadI "2025-07-22")
        "2025-07-22").createdDate = jsOrS overridePayloadI.createdDate "2025-07-22" :=
  ⟨createdDate_c4_amended.1 [] samplePayloadR "2025-07-22"
      (recipeCtorResult (recipeAddInput [] samplePayloadR "2025-07-22") "2025-07-22")
      (by decide),
    createdDate_c4_amended.2.2 [] overridePayloadI "2025-07-22"
      (invCtorResult (invAddInput [] overridePayloadI "2025-07-22") "2025-07-22")
      (by decide)⟩

/-- C5 counterexample: the repository `add` itself fails with "userId is
required" when userId is absent; it does not default it. -/
theorem inventoryAdd_userId_c5_counterexample :
    (InventoryItem.add [] noUserPayloadI "2025-07-22").1 =
      .error "userId is required" ∧
    (InventoryItem.add [] noUserPayloadI "2025-07-22").1.isOk = false := by
  constructor
  · decide
  · decide

/-- C5 (amended): the default identity is injected by the POST /inventory
route handler, not by the repository: `InventoryItem.add` fails whenever
userId is missing or empty, while the route-level add succeeds on an
otherwise-valid payload and stores the constant "TakumiWatanabe-00000001". -/
theorem inventoryAdd_userId_c5_amended :
    (∀ (l : List InventoryItem) (p : InvPayload) (t : String),
        (p.userId = none ∨ p.userId = some "") →
        (InventoryItem.add l p t).1.isOk = false) ∧
    (∀ (l : List InventoryItem) (p : InvPayload) (t : String),
        (p.userId = none ∨ p.userId = some "") →
        invPayloadValidB (routeNormalizeBody p) t = true →
        maxInvSuffix l = 0 →
        (routeInventoryAdd l p t).1 =
          .ok (invCtorResult (invAddInput l (routeNormalizeBody p) t) t) ∧
        (invCtorResult (invAddInput l (routeNormalizeBody p) t) t).userId =
          "TakumiWatanabe-00000001") := by
  constructor
  · intro l p t hu
    unfold InventoryItem.add
    split_ifs with h1 h2
    · rfl
    · rfl
    · exfalso
      apply h2
      rcases hu with h | h <;> rw [h] <;> rfl
  · intro l p t hu hv hm
    refine ⟨invAdd_ok_of_valid hv hm, ?_⟩
    have hnorm : (routeNormalizeBody p).userId = some "TakumiWatanabe-00000001" := by
      unfold routeNormalizeBody
      rcases hu with h | h <;> simp [h]
    have hfield : (invCtorResult (invAddInput l (routeNormalizeBody p) t) t).userId =
        jsTrim ((some (jsTrim ((routeNormalizeBody p).userId.getD ""))).getD "") := rfl
    rw [hfield, hnorm]
    decide

/-- C5 witness: the userId-less tomato body succeeds through the route on an
empty collection, stored under the default identity. -/
theorem inventoryAdd_userId_c5_amended_witness :
    (noUserPayloadI.userId = none ∨ noUserPayloadI.userId = some "") ∧
    (invPayloadValidB (routeNormalizeBody noUserPayloadI) "2025-07-22" = true ∧
      maxInvSuffix [] = 0) ∧
    ((routeInventoryAdd [] noUserPayloadI "2025-07-22").1 =
        .ok (invCtorResult (invAddInput [] (routeNormalizeBody noUserPayloadI)
          "2025-07-22") "2025-07-22") ∧
      (invCtorResult (invAddInput [] (routeNormalizeBody noUserPayloadI)
        "2025-07-22") "2025-07-22").userId = "TakumiWatanabe-00000001") :=
  ⟨Or.inl (by decide), ⟨by decide, by decide⟩,
    inventoryAdd_userId_c5_amended.2 [] noUserPayloadI "2025-07-22"
      (Or.inl (by decide)) (by decide) (by decide)⟩

/-- The seed carbonara recipe record, used to exercise the search engine. -/
def sampleRecipe : Recipe :=
  { recipeId := "R-00001"
    title := "Classic Spaghetti Carbonara"
    chef := "TakumiWatanabe"
    ingredients := ["400g spaghetti", "200g pancetta", "4 large eggs",
      "100g Pecorino Romano", "Black pepper"]
    instructions := ["Boil salted water for pasta", "Cook pancetta until crispy",
      "Whisk eggs with cheese", "Combine hot pasta with pancetta",
      "Add egg mixture off heat"]
    mealType := "Dinner"
    cuisineType := "Italian"
    prepTime := 25
    difficulty := "Medium"
    servings := 4
    createdDate := "2025-07-20" }

/-- C6: the free-text search returns exactly the recipes whose title, chef,
mealType or cuisineType contains the query case-insensitively, or where some
single ingredients or instructions entry does; the empty query matches every
record; and the has-a-search-been-performed flag is set exactly when the
query or scale parameter is supplied (also for an explicit empty query), and
unset when neither is supplied. -/
theorem search_c6 :
    (∀ (l : List Recipe) (q : String) (r : Recipe),
        r ∈ searchFilter l q ↔ (r ∈ l ∧ SpecSearchMatch q r)) ∧
    (∀ l : List Recipe, searchFilter l "" = l) ∧
    (∀ qp sp : Option String,
        hasSearchTriggered qp sp = true ↔ (qp.isSome = true ∨ sp.isSome = true)) ∧
    (∀ sp : Option String, hasSearchTriggered (some "") sp = true) ∧
    hasSearchTriggered none none = false := by
  refine ⟨?_, ?_, ?_, fun sp => rfl, rfl⟩
  · intro l q r
    rw [searchFilter, List.mem_filter]
    refine and_congr_right fun _ => ?_
    by_cases hq : q = ""
    · simp [hq, SpecSearchMatch]
    · rw [if_neg hq]
      simp [SpecSearchMatch, hq, Bool.or_eq_true, textIncludes_iff, List.any_eq_true,
        or_assoc]
  · intro l
    simp [searchFilter, List.filter_true]
  · intro qp sp
    cases qp <;> cases sp <;> simp [hasSearchTriggered]

/-- C6 witness: the carbonara record is in the "carbonara" search result of
the singleton collection exactly as the specification predicate says. -/
theorem search_c6_witness :
    sampleRecipe ∈ searchFilter [sampleRecipe] "carbonara" ↔
      (sampleRecipe ∈ [sampleRecipe] ∧ SpecSearchMatch "carbonara" sampleRecipe) :=
  search_c6.1 [sampleRecipe] "carbonara" sampleRecipe

/-- C7: `withDerived` projects every stored item, unchanged, to a derived
view whose daysLeft is the whole-day difference between the expiration date
and asOf-at-midnight (none when the expiration date is absent) and whose
lineValue is quantity times cost; it only depends on the day of `asOf`, an
expiration equal to the asOf day gives 0, one day earlier gives -1, and
quantity 8 with cost 6.4 gives lineValue 51.2 (day number 20294 is
2025-07-25). -/
theorem withDerived_c7 :
    (∀ (items : List InventoryItem) (asOf : ℚ),
        (InventoryItem.withDerived items asOf).length = items.length) ∧
    (∀ (items : List InventoryItem) (asOf : ℚ) (k : ℕ) (hk : k < items.length)
        (hk2 : k < (InventoryItem.withDerived items asOf).length),
        ((InventoryItem.withDerived items asOf).get ⟨k, hk2⟩).base = items.get ⟨k, hk⟩ ∧
        ((InventoryItem.withDerived items asOf).get ⟨k, hk2⟩).lineValue =
          (items.get ⟨k, hk⟩).quantity * (items.get ⟨k, hk⟩).cost ∧
        ((items.get ⟨k, hk⟩).expirationDate = "" →
          ((InventoryItem.withDerived items asOf).get ⟨k, hk2⟩).daysLeft = none) ∧
        (∀ e : ℤ, (items.get ⟨k, hk⟩).expirationDate ≠ "" →
          parseYmd (items.get ⟨k, hk⟩).expirationDate = some e →
          ((InventoryItem.withDerived items asOf).get ⟨k, hk2⟩).daysLeft =
            some (e - Int.floor (asOf / 86400000)))) ∧
    (∀ (items : List InventoryItem) (d : ℤ) (t : ℚ), 0 ≤ t → t < 86400000 →
        InventoryItem.withDerived items ((d : ℚ) * 86400000 + t) =
          InventoryItem.withDerived items ((d : ℚ) * 86400000)) ∧
    ((InventoryItem.withDerived [sampleTomato] ((20294 : ℚ) * 86400000)).map
        (fun x => (x.daysLeft, x.lineValue)) = [(some 0, 51.2)]) ∧
    ((InventoryItem.withDerived [sampleTomato] ((20295 : ℚ) * 86400000)).map
        (fun x => (x.daysLeft, x.lineValue)) = [(some (-1), 51.2)]) := by
  have hself : ∀ d : ℤ, Int.floor (((d : ℚ) * 86400000) / 86400000) = d := by
    intro d
    have h : ((d : ℚ) * 86400000) / 86400000 = (d : ℚ) := by
      field_simp
    rw [h, Int.floor_intCast]
  have hp : parseYmd "2025-07-25" = some 20294 := by decide
  refine ⟨?_, ?_, ?_, ?_, ?_⟩
  · intro items asOf
    simp [InventoryItem.withDerived]
  · intro items asOf k hk hk2
    simp only [InventoryItem.withDerived, List.get_eq_getElem, List.getElem_map]
    refine ⟨by trivial, by trivial, ?_, ?_⟩
    · intro he
      simp [he]
    · intro e hne hpe
      simp [hne, hpe, ceil_whole_days]
  · intro items d t h0 h1
    simp only [InventoryItem.withDerived]
    rw [floor_day_of_time h0 h1, hself d]
  · have hne0 : ("2025-07-25" : String) ≠ "" := by decide
    simp only [InventoryItem.withDerived, sampleTomato, List.map_cons, List.map_nil, hp,
      if_neg hne0]
    norm_num
  · have hne0 : ("2025-07-25" : String) ≠ "" := by decide
    simp only [InventoryItem.withDerived, sampleTomato, List.map_cons, List.map_nil, hp,
      if_neg hne0]
    norm_num
    rw [show ((-1 : ℚ)) = (((-1 : ℤ)) : ℚ) by norm_num, Int.ceil_intCast]

/-- C7 witness: shifting asOf one hour past midnight of day 20294 does not
change the projection of the seed tomato item. -/
theorem withDerived_c7_witness :
    InventoryItem.withDerived [sampleTomato] (((20294 : ℤ) : ℚ) * 86400000 + 3600000) =
      InventoryItem.withDerived [sampleTomato] (((20294 : ℤ) : ℚ) * 86400000) :=
  withDerived_c7.2.2.1 [sampleTomato] 20294 3600000 (by norm_num) (by norm_num)

/-- C8: the scale factor is clamped into [0.25, 5] (10 goes to 5, 0 goes to
0.25), a non-finite or absent parameter defaults to 1, and the scaled
servings are max(1, round(servings * scale)) whenever the stored servings
are non-zero. -/
theorem scale_c8 :
    (∀ raw : JsNum, 1 / 4 ≤ sanitizeScale raw ∧ sanitizeScale raw ≤ 5) ∧
    sanitizeScale (some 10) = 5 ∧
    sanitizeScale (some 0) = 1 / 4 ∧
    sanitizeScale none = 1 ∧
    (∀ s k : ℚ, s ≠ 0 → servingsScaled s k = max 1 (jsRound (s * k))) := by
  refine ⟨?_, by norm_num [sanitizeScale], by norm_num [sanitizeScale], rfl, ?_⟩
  · intro raw
    cases raw with
    | none => norm_num [sanitizeScale]
    | some x =>
      exact ⟨le_min (by norm_num) (le_max_left _ _), min_le_left _ _⟩
  · intro s k hs
    unfold servingsScaled
    rw [if_neg hs]

/-- C8 witness: servings 4 at scale one half round to 2. -/
theorem scale_c8_witness :
    (4 : ℚ) ≠ 0 ∧ servingsScaled 4 (1 / 2) = max 1 (jsRound ((4 : ℚ) * (1 / 2))) :=
  ⟨by norm_num, scale_c8.2.2.2.2 4 (1 / 2) (by norm_num)⟩

/-- C9: the constructor copies the caller's ingredient and instruction
arrays (slice), so a successfully constructed record holds the
construction-time contents, and later mutation of the caller's array through
its reference cannot change the record. -/
theorem recipeCtor_copies_c9 :
    ∀ (store : ArrStore) (p : RecipeHeapPayload) (t : String) (r : Recipe)
      (mutated : List String),
      recipeCtorViaRefs store p t = .ok r →
      (r.ingredients = store.getD p.ingredientsRef [] ∧
        r.instructions = store.getD p.instructionsRef [] ∧
        (mutated ≠ store.getD p.ingredientsRef [] → r.ingredients ≠ mutated)) := by
  intro store p t r mutated h
  unfold recipeCtorViaRefs at h
  obtain ⟨-, hr⟩ := recipeCtor_eq_ok_iff.mp h
  subst hr
  exact ⟨rfl, rfl, fun hne h2 => hne (h2.symm)⟩

/-- C9 witness: the record built over the two-array heap keeps the heap
contents and differs from a mutated array value. -/
theorem recipeCtor_copies_c9_witness :
    recipeCtorViaRefs sampleStore sampleHeapPayload "2025-07-22" = .ok sampleHeapRecipe ∧
    (sampleHeapRecipe.ingredients = sampleStore.getD sampleHeapPayload.ingredientsRef [] ∧
      sampleHeapRecipe.instructions = sampleStore.getD sampleHeapPayload.instructionsRef [] ∧
      (["mutated"] ≠ sampleStore.getD sampleHeapPayload.ingredientsRef [] →
        sampleHeapRecipe.ingredients ≠ ["mutated"])) :=
  ⟨by decide,
    recipeCtor_copies_c9 sampleStore sampleHeapPayload "2025-07-22" sampleHeapRecipe
      ["mutated"] (by decide)⟩

/-- C10: an id that does not match the expected five-digit format
contributes suffix 0 to the next-id scan, so a collection holding only
malformed ids still accepts a valid payload and assigns "R-00001"
(respectively "I-00001"). -/
theorem malformedIds_c10 :
    (∀ s : String, isRecipeIdFormat s = false → recipeIdSuffix s = 0) ∧
    (∀ s : String, isInventoryIdFormat s = false → inventoryIdSuffix s = 0) ∧
    (∀ (l : List Recipe) (p : RecipePayload) (t : String),
        (∀ r ∈ l, isRecipeIdFormat r.recipeId = false) →
        recipePayloadValidB p = true → isYmd t = true →
        (Recipe.add l p t).1 = .ok (recipeCtorResult (recipeAddInput l p t) t) ∧
        (recipeCtorResult (recipeAddInput l p t) t).recipeId = "R-00001") ∧
    (∀ (l : List InventoryItem) (p : InvPayload) (t : String),
        (∀ i ∈ l, isInventoryIdFormat i.inventoryId = false) →
        invPayloadValidB p t = true →
        (InventoryItem.add l p t).1 = .ok (invCtorResult (invAddInput l p t) t) ∧
        (invCtorResult (invAddInput l p t) t).inventoryId = "I-00001") := by
  refine ⟨fun s h => recipeIdSuffix_eq_zero h, fun s h => inventoryIdSuffix_eq_zero h,
    ?_, ?_⟩
  · intro l p t hall hv ht
    have hm := maxRecipeSuffix_eq_zero hall
    refine ⟨recipeAdd_ok_of_valid hv ht hm, ?_⟩
    show Recipe.formatId (maxRecipeSuffix l + 1) = "R-00001"
    rw [hm]
    exact (by decide : Recipe.formatId (0 + 1) = "R-00001")
  · intro l p t hall hv
    have hm := maxInvSuffix_eq_zero hall
    refine ⟨invAdd_ok_of_valid hv hm, ?_⟩
    show InventoryItem.formatId (maxInvSuffix l + 1) = "I-00001"
    rw [hm]
    exact (by decide : InventoryItem.formatId (0 + 1) = "I-00001")

/-- C10 witness: collections holding only the stray malformed records still
accept the valid fixtures and assign "R-00001" and "I-00001". -/
theorem malformedIds_c10_witness :
    ((Recipe.add [strayRecipe] samplePayloadR "2025-07-22").1 =
        .ok (recipeCtorResult (recipeAddInput [strayRecipe] samplePayloadR "2025-07-22")
          "2025-07-22") ∧
      (recipeCtorResult (recipeAddInput [strayRecipe] samplePayloadR "2025-07-22")
        "2025-07-22").recipeId = "R-00001") ∧
    ((InventoryItem.add [strayItem] samplePayloadI "2025-07-22").1 =
        .ok (invCtorResult (invAddInput [strayItem] samplePayloadI "2025-07-22")
          "2025-07-22") ∧
      (invCtorResult (invAddInput [strayItem] samplePayloadI "2025-07-22")
        "2025-07-22").inventoryId = "I-00001") :=
  ⟨malformedIds_c10.2.2.1 [strayRecipe] samplePayloadR "2025-07-22" (by decide) (by decide)
      (by decide),
    malformedIds_c10.2.2.2 [strayItem] samplePayloadI "2025-07-22" (by decide) (by decide)⟩

end RecipeHub
